import Mathlib

/-!
# Verification of the Diabetes Prediction System front end

Shallow embedding of `src/frontend/js/script.js` and
`src/frontend/js/dashboard.js`.  JavaScript numbers are modelled as exact
rationals (`ℚ`); `parseFloat` failure (`NaN`) is modelled as `Option.none`;
DOM/network side effects are modelled as explicit event traces; module-level
mutable state is modelled by explicit state passing.
-/

namespace DiabetesUI

/-! ## JavaScript string primitives -/

/-- The whitespace characters relevant to the inputs handled here
(models what `String.prototype.trim` and `parseFloat` skip). -/
def jsWhitespace (c : Char) : Bool :=
  c = ' ' || c = '\t' || c = '\n' || c = '\r'

/-- Models `String.prototype.trim`. -/
def jsTrim (s : String) : String :=
  String.mk (((s.toList.dropWhile jsWhitespace).reverse.dropWhile jsWhitespace).reverse)

/-- Value of a decimal digit character. -/
def digitVal (c : Char) : ℕ := c.toNat - 48

/-- Digit scanning done by `parseFloat` after skipping whitespace: an
optional sign (`true` = negative), the integer-part digit values, and the
fractional-part digit values; `none` models `NaN` (no digit consumed).
Exponents and `Infinity` literals are outside the inputs this UI handles
and are not modelled. -/
def jsParseParts (s : String) : Option (Bool × List ℕ × List ℕ) :=
  let cs := s.toList.dropWhile jsWhitespace
  let signAndRest : Bool × List Char :=
    match cs with
    | '-' :: rest => (true, rest)
    | '+' :: rest => (false, rest)
    | _ => (false, cs)
  let body := signAndRest.2
  let intDigits := body.takeWhile Char.isDigit
  let afterInt := body.dropWhile Char.isDigit
  let fracDigits :=
    match afterInt with
    | '.' :: rest => rest.takeWhile Char.isDigit
    | _ => []
  if intDigits = [] ∧ fracDigits = [] then none
  else some (signAndRest.1, intDigits.map digitVal, fracDigits.map digitVal)

/-- Natural number denoted by a list of decimal digit values. -/
def digitsToNat (ds : List ℕ) : ℕ := ds.foldl (fun a d => 10 * a + d) 0

/-- Rational denoted by the fractional digit values (`0.d₁d₂…`). -/
def fracValue (ds : List ℕ) : ℚ := ds.foldr (fun d a => ((d : ℚ) + a) / 10) 0

/-- Models JavaScript `parseFloat` as an exact rational. -/
def jsParseFloat (s : String) : Option ℚ :=
  (jsParseParts s).map fun p =>
    (if p.1 then (-1 : ℚ) else 1) * ((digitsToNat p.2.1 : ℚ) + fracValue p.2.2)

/-- Models the JavaScript `x || fallback` idiom on an optional string field:
the fallback is used when the field is absent or the empty string (falsy). -/
def jsOrString (x : Option String) (fallback : String) : String :=
  match x with
  | some s => if s = "" then fallback else s
  | none => fallback

/-! ## Form validation (`script.js`, `validateFormData`, lines 175–224)

The raw field-to-string mapping built by `Object.fromEntries(formData)` is
modelled as an association list with distinct keys (a JavaScript object has
at most one entry per key). -/

/-- A raw form-data mapping: field name to raw string value. -/
abbrev FormDataMap := List (String × String)

/-- `const requiredFields = ['Glucose', 'BMI', 'Age']`. -/
def requiredFields : List String := ["Glucose", "BMI", "Age"]

/-- `!data[field] || data[field].trim() === ''`: the field is absent, the
empty string (falsy), or trims to the empty string. -/
def isBlankField (v : Option String) : Bool :=
  match v with
  | none => true
  | some s => s = "" || jsTrim s = ""

/-- Errors pushed by the required-fields loop, in `requiredFields` order. -/
def requiredErrors (data : FormDataMap) : List String :=
  requiredFields.filterMap fun f =>
    if isBlankField (data.lookup f) then some (f ++ " is required") else none

/-- Errors pushed by the `Object.keys(data).forEach` numeric loop, in key
insertion order: one error per field whose value has `isNaN(parseFloat(v))`. -/
def numericErrors (data : FormDataMap) : List String :=
  data.filterMap fun kv =>
    if (jsParseFloat kv.2).isNone then some (kv.1 ++ " must be a number") else none

/-- `if (data.Glucose) { ... if (glucose < 0 || glucose > 300) push }`:
the check runs only when the field is present and truthy (non-empty), and a
`NaN` parse satisfies neither comparison. -/
def glucoseRangeErrors (data : FormDataMap) : List String :=
  match data.lookup "Glucose" with
  | some v =>
      if v = "" then []
      else
        match jsParseFloat v with
        | some g =>
            if g < 0 ∨ g > 300 then ["Glucose must be between 0 and 300 mg/dL"] else []
        | none => []
  | none => []

/-- `if (data.BMI) { ... if (bmi < 10 || bmi > 70) push }`. -/
def bmiRangeErrors (data : FormDataMap) : List String :=
  match data.lookup "BMI" with
  | some v =>
      if v = "" then []
      else
        match jsParseFloat v with
        | some b =>
            if b < 10 ∨ b > 70 then ["BMI must be between 10 and 70"] else []
        | none => []
  | none => []

/-- `if (data.Age) { ... if (age < 1 || age > 120) push }`. -/
def ageRangeErrors (data : FormDataMap) : List String :=
  match data.lookup "Age" with
  | some v =>
      if v = "" then []
      else
        match jsParseFloat v with
        | some a =>
            if a < 1 ∨ a > 120 then ["Age must be between 1 and 120 years"] else []
        | none => []
  | none => []

/-- The full `errors` array accumulated by `validateFormData`, in push order:
required-field errors, then numeric errors, then the three range checks. -/
def validationErrors (data : FormDataMap) : List String :=
  requiredErrors data ++ numericErrors data ++
    glucoseRangeErrors data ++ bmiRangeErrors data ++ ageRangeErrors data

/-- Result shape of `validateFormData`: `{valid: true}` or
`{valid: false, message: errors.join(', ')}`. -/
inductive ValidationResult where
  | valid : ValidationResult
  | invalid (message : String) : ValidationResult
deriving DecidableEq

/-- `validateFormData` (script.js lines 175–224). -/
def validateFormData (data : FormDataMap) : ValidationResult :=
  let errors := validationErrors data
  if errors.length > 0 then .invalid (String.intercalate ", " errors)
  else .valid

/-! ## Form submission (`script.js`, `handleFormSubmit`, lines 130–173) -/

/-- Paired confidence percentages of a prediction response. -/
structure Confidence where
  diabetic : ℚ
  non_diabetic : ℚ
deriving DecidableEq

/-- JSON body of a `/api/predict` response, as consumed by
`handleFormSubmit` / `displayPredictionResult` / `setupResultActions`. -/
structure PredictResponse where
  status : String
  error : Option String := none
  prediction_label : String := ""
  risk_level : String := ""
  confidence : Confidence := ⟨0, 0⟩
  health_advice : List String := []
deriving DecidableEq

/-- Outcome of `fetch` + `response.json()`: either a parsed body, or a raised
exception (network unreachable, timeout, or malformed/non-JSON body). -/
inductive FetchOutcome where
  | response (r : PredictResponse)
  | failure
deriving DecidableEq

/-- Observable UI effects of one form submission. -/
inductive UIEvent where
  | setLoading (flag : Bool)
  | renderResult (r : PredictResponse)
  | notify (message : String) (kind : String)
deriving DecidableEq

/-- Effect trace of `handleFormSubmit` (script.js lines 130–173) for one
submission, as a function of the collected form data and the fetch outcome.
The trailing `.setLoading false` is appended once, outside the
per-outcome branch: it models the `finally { showLoading(false) }` block. -/
def handleFormSubmit (data : FormDataMap) (o : FetchOutcome) : List UIEvent :=
  match validateFormData data with
  | .invalid m => [.notify m "error"]
  | .valid =>
      .setLoading true ::
        (match o with
         | .response r =>
             if r.status = "success" then
               [.renderResult r, .notify "Prediction completed successfully!" "success"]
             else
               [.notify (jsOrString r.error "Prediction failed") "error"]
         | .failure =>
             [.notify "Unable to connect to prediction service" "error"]) ++
        [.setLoading false]

/-! ## Result actions (`script.js`, `setupResultActions`, lines 284–304) -/

/-- Models `Number.prototype.toFixed(1)` for the nonnegative percentage
values this UI renders (binary floating-point artifacts are not modelled). -/
def jsToFixed1 (q : ℚ) : String :=
  let n : ℤ := round (q * 10)
  toString (n / 10) ++ "." ++ toString ((n % 10).natAbs)

/-- The share action's one-line summary
`My diabetes risk assessment: ${label} (${pct}% probability). ${result.health_advice[0]}`.
The element-0 access carries no emptiness guard in the source; it is the
sole fallible step, so the summary is `none` exactly when the advice list
is empty. -/
def shareText (r : PredictResponse) : Option String :=
  r.health_advice.head?.map fun advice =>
    "My diabetes risk assessment: " ++ r.prediction_label ++ " (" ++
      jsToFixed1 r.confidence.diabetic ++ "% probability). " ++ advice

/-! ## Dashboard data model (`dashboard.js`) -/

/-- `overview` section of a dashboard snapshot. -/
structure Overview where
  total_predictions : ℕ
  recent_predictions : ℕ
  model_accuracy : ℚ
  avg_response_time : ℚ
deriving DecidableEq

/-- `risk_distribution` section; each count may be absent
(read as `riskData.low || 0` etc.). -/
structure RiskData where
  low : Option ℕ := none
  medium : Option ℕ := none
  high : Option ℕ := none
deriving DecidableEq

/-- `hourly_trend` section; absent arrays trigger the `||` fallbacks in
`updateHourlyTrendChart`. -/
structure HourlyTrend where
  labels : Option (List String) := none
  trendData : Option (List ℚ) := none
deriving DecidableEq

/-- `performance_metrics` section. -/
structure PerformanceMetrics where
  precision : ℚ
  «recall» : ℚ
  f1_score : ℚ
  auc_score : ℚ
deriving DecidableEq

/-- `feature_distribution` section; JSON objects of category → percentage
are modelled as association lists in insertion order (as `Object.keys` /
`Object.values` iterate them). -/
structure FeatureDistribution where
  age_groups : Option (List (String × ℚ)) := none
  bmi_categories : List (String × ℚ) := []
  glucose_levels : List (String × ℚ) := []
deriving DecidableEq

/-- One `predictions_timeline` event.  The feed reads
`predictionData.Glucose || predictionData.glucose || 'N/A'` (and likewise
for age and risk level); the two key spellings are modelled as one
optional value. -/
structure TimelineEntry where
  timestamp : Option ℤ := none
  glucose : Option ℚ := none
  age : Option ℚ := none
  risk_level : Option String := none
deriving DecidableEq

/-- One complete `/api/analytics/dashboard` snapshot. -/
structure Snapshot where
  overview : Overview
  risk_distribution : RiskData
  hourly_trend : HourlyTrend
  performance_metrics : PerformanceMetrics
  feature_distribution : FeatureDistribution
  predictions_timeline : Option (List TimelineEntry) := none
deriving DecidableEq

/-! ## Risk-distribution percentage labels
(`dashboard.js`, `updateRiskDistributionChart`, lines 130–143) -/

/-- JavaScript `Math.round`: round half toward positive infinity. -/
def jsMathRound (q : ℚ) : ℤ := ⌊q + 1 / 2⌋

/-- One percentage label:
`total > 0 ? Math.round((part / total) * 100) + '%' : '0%'`. -/
def riskPercentLabel (part total : ℕ) : String :=
  if total > 0 then toString (jsMathRound ((part : ℚ) / (total : ℚ) * 100)) ++ "%"
  else "0%"

/-- The three percentage labels written to `lowRiskPercent`,
`mediumRiskPercent` and `highRiskPercent` on each refresh. -/
def riskPercentLabels (rd : RiskData) : String × String × String :=
  let low := rd.low.getD 0
  let medium := rd.medium.getD 0
  let high := rd.high.getD 0
  let total := low + medium + high
  (riskPercentLabel low total, riskPercentLabel medium total, riskPercentLabel high total)

/-! ## Chart registry (`dashboard.js`, `let charts = {}`, line 6, and the
five `update*Chart` functions)

A chart instance records the label/data arrays of its single dataset
(`chart.data.labels`, `chart.data.datasets[0].data`) plus a creation
identity: `DashState.nextChartId` counts `new Chart(...)` constructions,
so instance reuse versus re-creation is observable in the model. -/

structure ChartInst where
  id : ℕ
  labels : List String
  dsData : List ℚ
deriving DecidableEq

/-- The module-level `charts` object: one slot per chart name. -/
structure ChartRegistry where
  riskDistribution : Option ChartInst := none
  featureImportance : Option ChartInst := none
  hourlyTrend : Option ChartInst := none
  performance : Option ChartInst := none
  ageDistribution : Option ChartInst := none
deriving DecidableEq

/-- Chart-related module state of the dashboard page. -/
structure DashState where
  charts : ChartRegistry := {}
  nextChartId : ℕ := 0
deriving DecidableEq

/-- `updateRiskDistributionChart` chart part (lines 144–196): update the
existing instance's data in place, else construct the chart once. -/
def updateRiskDistributionChart (s : DashState) (rd : RiskData) : DashState :=
  let low := rd.low.getD 0
  let medium := rd.medium.getD 0
  let high := rd.high.getD 0
  let d : List ℚ := [(low : ℚ), (medium : ℚ), (high : ℚ)]
  match s.charts.riskDistribution with
  | some c =>
      let c2 := { c with dsData := d }
      { s with charts := { s.charts with riskDistribution := some c2 } }
  | none =>
      let c2 : ChartInst := ⟨s.nextChartId, ["Low Risk", "Medium Risk", "High Risk"], d⟩
      { s with nextChartId := s.nextChartId + 1,
               charts := { s.charts with riskDistribution := some c2 } }

/-- Hard-coded labels of `updateFeatureImportanceChart` (lines 204–207). -/
def featureNames : List String :=
  ["Glucose", "BMI", "Age", "Diabetes Pedigree",
   "Blood Pressure", "Pregnancies", "Insulin", "Skin Thickness"]

/-- Hard-coded scores of `updateFeatureImportanceChart` (line 209). -/
def featureImportanceScores : List ℚ := [95, 87, 78, 65, 58, 45, 32, 25]

/-- `updateFeatureImportanceChart` (lines 200–262). -/
def updateFeatureImportanceChart (s : DashState) : DashState :=
  match s.charts.featureImportance with
  | some c =>
      let c2 := { c with dsData := featureImportanceScores }
      { s with charts := { s.charts with featureImportance := some c2 } }
  | none =>
      let c2 : ChartInst := ⟨s.nextChartId, featureNames, featureImportanceScores⟩
      { s with nextChartId := s.nextChartId + 1,
               charts := { s.charts with featureImportance := some c2 } }

/-- `Array.from({length: 24}, (_, i) => i + ':00')`. -/
def defaultHourLabels : List String := (List.range 24).map fun i => toString i ++ ":00"

/-- `updateHourlyTrendChart` (lines 265–325); `rand` supplies the 24
`Math.floor(Math.random() * 10)` draws used when the snapshot carries no
data array. -/
def updateHourlyTrendChart (s : DashState) (t : HourlyTrend) (rand : List ℚ) : DashState :=
  let labels := t.labels.getD defaultHourLabels
  let d := t.trendData.getD rand
  match s.charts.hourlyTrend with
  | some c =>
      let c2 := { c with labels := labels, dsData := d }
      { s with charts := { s.charts with hourlyTrend := some c2 } }
  | none =>
      let c2 : ChartInst := ⟨s.nextChartId, labels, d⟩
      { s with nextChartId := s.nextChartId + 1,
               charts := { s.charts with hourlyTrend := some c2 } }

/-- The JavaScript `x || fallback` idiom on a number: `0` is falsy. -/
def jsOrNum (x fallback : ℚ) : ℚ := if x = 0 then fallback else x

/-- Dataset of `updatePerformanceChart` (lines 337–342). -/
def performanceData (m : PerformanceMetrics) : List ℚ :=
  [jsOrNum m.precision 92, jsOrNum m.«recall» 89, jsOrNum m.f1_score 90, jsOrNum m.auc_score 94]

/-- `updatePerformanceChart` chart part (lines 328–390); the three metric
text labels it also writes are plain DOM text, not chart state. -/
def updatePerformanceChart (s : DashState) (m : PerformanceMetrics) : DashState :=
  match s.charts.performance with
  | some c =>
      let c2 := { c with dsData := performanceData m }
      { s with charts := { s.charts with performance := some c2 } }
  | none =>
      let c2 : ChartInst :=
        ⟨s.nextChartId, ["Precision", "Recall", "F1-Score", "AUC Score"], performanceData m⟩
      { s with nextChartId := s.nextChartId + 1,
               charts := { s.charts with performance := some c2 } }

/-- Fallback age groups of `updateAgeDistributionChart` (lines 397–401). -/
def defaultAgeGroups : List (String × ℚ) := [("<30", 25), ("30-50", 45), (">50", 30)]

/-- `updateAgeDistributionChart` (lines 393–465). -/
def updateAgeDistributionChart (s : DashState) (fd : FeatureDistribution) : DashState :=
  let groups := fd.age_groups.getD defaultAgeGroups
  let labels := groups.map Prod.fst
  let d := groups.map Prod.snd
  match s.charts.ageDistribution with
  | some c =>
      let c2 := { c with labels := labels, dsData := d }
      { s with charts := { s.charts with ageDistribution := some c2 } }
  | none =>
      let c2 : ChartInst := ⟨s.nextChartId, labels, d⟩
      { s with nextChartId := s.nextChartId + 1,
               charts := { s.charts with ageDistribution := some c2 } }

/-- `updateCharts` (lines 112–127): the five chart updates in source order. -/
def updateCharts (s : DashState) (d : Snapshot) (rand : List ℚ) : DashState :=
  updateAgeDistributionChart
    (updatePerformanceChart
      (updateHourlyTrendChart
        (updateFeatureImportanceChart
          (updateRiskDistributionChart s d.risk_distribution))
        d.hourly_trend rand)
      d.performance_metrics)
    d.feature_distribution

/-- One chart-refresh cycle, as folded over successive snapshots. -/
def refreshDashboardCharts (s : DashState) (p : Snapshot × List ℚ) : DashState :=
  updateCharts s p.1 p.2

/-! ## Relative time formatting (`dashboard.js`, `formatTime`, lines 752–766) -/

/-- Models `date.toLocaleDateString() + ' ' + date.toLocaleTimeString(...)`:
the locale-dependent absolute date+time rendering of the timestamp.  The
exact text is environment-defined, so it is modelled as a tagged rendering
of the epoch-millisecond value. -/
def jsLocaleDateTime (t : ℤ) : String := "<date+time " ++ toString t ++ ">"

/-- `formatTime`: timestamps are epoch milliseconds; `none` models a missing
(falsy) timestamp argument.  `Math.floor` of a real division is the floor
of the exact rational quotient. -/
def formatTime (nowMs : ℤ) (timestamp : Option ℤ) : String :=
  match timestamp with
  | none => "Just now"
  | some t =>
      let diffMs := nowMs - t
      let diffMins : ℤ := ⌊(diffMs : ℚ) / 60000⌋
      let diffHours : ℤ := ⌊(diffMs : ℚ) / 3600000⌋
      if diffMins < 1 then "Just now"
      else if diffMins < 60 then toString diffMins ++ " min ago"
      else if diffHours < 24 then
        toString diffHours ++ " hour" ++ (if diffHours > 1 then "s" else "") ++ " ago"
      else jsLocaleDateTime t

/-! ## Dashboard refresh cycle (`dashboard.js`, `loadDashboardData`,
lines 46–71, and `loadSampleData`, lines 630–679) -/

/-- Observable effects of one dashboard refresh cycle. -/
inductive DashEvent where
  | setLoading (flag : Bool)
  | notify (message : String) (kind : String)
  | renderStats (o : Overview)
  | renderCharts (d : Snapshot)
  | renderFeed (tl : Option (List TimelineEntry))
  | setLastUpdate
deriving DecidableEq

/-- `updateDashboard` (lines 74–83): stats, charts, then the feed, all from
one snapshot. -/
def updateDashboardEvents (d : Snapshot) : List DashEvent :=
  [.renderStats d.overview, .renderCharts d, .renderFeed d.predictions_timeline]

/-- Outcome of the `/api/analytics/dashboard` fetch: a parsed body without
an `error` field, a parsed body whose `error` field is thrown
(`if (data.error) throw new Error(data.error)`), or a transport failure
(unreachable, timeout, malformed body). -/
inductive DashFetchOutcome where
  | ok (d : Snapshot)
  | errorField (message : String)
  | failure
deriving DecidableEq

/-- One synthesized timeline entry of `loadSampleData`: entry `i` is
`i` hours old and takes its `Math.random()` draws from `r`
(`Glucose: 120 + r₁·60`, `Age: 30 + r₂·40`, risk level picked by the
index `Math.floor(Math.random()·3)`). -/
def sampleTimelineEntry (nowMs : ℤ) (i : ℕ) (r : ℚ × ℚ × Fin 3) : TimelineEntry :=
  { timestamp := some (nowMs - (i : ℤ) * 3600000),
    glucose := some (120 + r.1 * 60),
    age := some (30 + r.2.1 * 40),
    risk_level := some (["low", "medium", "high"].get (Fin.cast (by decide) r.2.2)) }

/-- The locally-synthesized placeholder snapshot built by `loadSampleData`
(lines 630–679); `nowMs` is `Date.now()` and `rand` supplies the random
draws of the five synthesized timeline entries. -/
def sampleSnapshot (nowMs : ℤ) (rand : List (ℚ × ℚ × Fin 3)) : Snapshot :=
  { overview :=
      { total_predictions := 1247, recent_predictions := 42,
        model_accuracy := 94.2, avg_response_time := 0.3 },
    risk_distribution := { low := some 560, medium := some 437, high := some 250 },
    hourly_trend :=
      { labels := some ((List.range 24).map fun i =>
          (if i < 10 then "0" ++ toString i else toString i) ++ ":00"),
        trendData := some [2, 1, 0, 0, 1, 2, 5, 8, 12, 15, 18, 20, 22, 21, 19, 17,
          15, 13, 10, 8, 6, 4, 3, 2] },
    performance_metrics :=
      { precision := 92, «recall» := 89, f1_score := 90, auc_score := 94 },
    feature_distribution :=
      { age_groups := some [("<30", 25), ("30-50", 45), (">50", 30)],
        bmi_categories := [("Underweight", 15), ("Normal", 35), ("Overweight", 30), ("Obese", 20)],
        glucose_levels := [("Normal", 40), ("Prediabetic", 35), ("Diabetic", 25)] },
    predictions_timeline :=
      some ((List.range 5).map fun i => sampleTimelineEntry nowMs i (rand.getD i (0, 0, 0))) }

/-- Effect trace and resulting `dashboardData` of one `loadDashboardData`
cycle (lines 46–71).  On either failure (a thrown `data.error` or a
transport failure) the `catch` block raises the error notification and then
runs `loadSampleData`, which installs the placeholder snapshot and renders
everything from it; the `finally` block clears the busy state in all cases. -/
def loadDashboardData (o : DashFetchOutcome) (nowMs : ℤ)
    (rand : List (ℚ × ℚ × Fin 3)) : List DashEvent × Option Snapshot :=
  match o with
  | .ok d =>
      (.setLoading true :: updateDashboardEvents d ++
        [.setLastUpdate, .notify "Dashboard updated successfully" "success",
         .setLoading false],
       some d)
  | .errorField _ =>
      let sd := sampleSnapshot nowMs rand
      (.setLoading true :: .notify "Failed to load dashboard data" "error" ::
        updateDashboardEvents sd ++ [.setLastUpdate, .setLoading false],
       some sd)
  | .failure =>
      let sd := sampleSnapshot nowMs rand
      (.setLoading true :: .notify "Failed to load dashboard data" "error" ::
        updateDashboardEvents sd ++ [.setLastUpdate, .setLoading false],
       some sd)

/-! ## Pending timers (`script.js` `animateCounter` lines 438–453 and
`showNotification` lines 556–610; `dashboard.js` `showNotification`
lines 695–750)

Both `showNotification` variants schedule a fresh 3-second auto-dismiss
`setTimeout` on every call and never call `clearTimeout` on the previously
scheduled one; both `animateCounter` variants store their `setInterval`
handle in a local constant and never call `clearInterval` on a previously
started animation of the same element.  The models below track the pending
timers attached to one target element. -/

/-- Pending auto-dismiss timers of the single reused
`.dashboard-notification` element (fire times, in scheduling order). -/
structure NotifTimers where
  pending : List ℤ := []
deriving DecidableEq

/-- Timer effect of one `dashboard.js` `showNotification` call at
`callTime`: the element is created or updated in place, and one more
3000 ms dismiss timeout is scheduled; none is cleared. -/
def dashShowNotificationTimers (callTime : ℤ) (s : NotifTimers) : NotifTimers :=
  ⟨s.pending ++ [callTime + 3000]⟩

/-- Live counter-animation intervals on one counter element (start times). -/
structure CounterTimers where
  intervals : List ℤ := []
deriving DecidableEq

/-- Timer effect of one `animateCounter` call at `callTime` on the same
element: a fresh `setInterval` starts; no previous interval is cleared
(its handle was a local constant of the earlier call). -/
def animateCounterTimers (callTime : ℤ) (s : CounterTimers) : CounterTimers :=
  ⟨s.intervals ++ [callTime]⟩

/-! ## Helper lemmas -/

theorem jsParseFloat_eq_of_parts (s : String) (ds : List ℕ)
    (h : jsParseParts s = some (false, ds, [])) :
    jsParseFloat s = some ((digitsToNat ds : ℕ) : ℚ) := by
  simp [jsParseFloat, h, fracValue]

theorem jsParseFloat_isSome_of_parts (s : String) (p : Bool × List ℕ × List ℕ)
    (h : jsParseParts s = some p) : (jsParseFloat s).isNone = false := by
  simp [jsParseFloat, h]

theorem jsParseFloat_350 : jsParseFloat "350" = some 350 := by
  rw [jsParseFloat_eq_of_parts _ [3, 5, 0] (by decide)]; norm_num [digitsToNat]

theorem jsParseFloat_25 : jsParseFloat "25" = some 25 := by
  rw [jsParseFloat_eq_of_parts _ [2, 5] (by decide)]; norm_num [digitsToNat]

theorem jsParseFloat_40 : jsParseFloat "40" = some 40 := by
  rw [jsParseFloat_eq_of_parts _ [4, 0] (by decide)]; norm_num [digitsToNat]

theorem jsParseFloat_100 : jsParseFloat "100" = some 100 := by
  rw [jsParseFloat_eq_of_parts _ [1, 0, 0] (by decide)]; norm_num [digitsToNat]

theorem jsParseFloat_22 : jsParseFloat "22" = some 22 := by
  rw [jsParseFloat_eq_of_parts _ [2, 2] (by decide)]; norm_num [digitsToNat]

theorem jsParseFloat_30 : jsParseFloat "30" = some 30 := by
  rw [jsParseFloat_eq_of_parts _ [3, 0] (by decide)]; norm_num [digitsToNat]

/-- The spec's invalid example: only the Glucose range rule is violated. -/
theorem validateFormData_glucose350 :
    validateFormData [("Glucose", "350"), ("BMI", "25"), ("Age", "40")] =
      .invalid "Glucose must be between 0 and 300 mg/dL" := by
  simp [validateFormData, validationErrors, requiredErrors, numericErrors, glucoseRangeErrors,
    bmiRangeErrors, ageRangeErrors, requiredFields, isBlankField, List.lookup,
    jsParseFloat_350, jsParseFloat_25, jsParseFloat_40, List.filterMap, String.intercalate,
    show jsTrim "350" ≠ "" from by decide, show jsTrim "25" ≠ "" from by decide,
    show jsTrim "40" ≠ "" from by decide]
  norm_num
  rfl

/-- A fully filled-in form with all eight fields numeric and the three
required fields inside their declared ranges. -/
def fullNumericForm : FormDataMap :=
  [("Pregnancies", "2"), ("Glucose", "100"), ("BloodPressure", "70"),
   ("SkinThickness", "20"), ("Insulin", "80"), ("BMI", "22"),
   ("DiabetesPedigreeFunction", "0.5"), ("Age", "30")]

/-- The spec's valid example passes validation. -/
theorem validateFormData_fullNumericForm : validateFormData fullNumericForm = .valid := by
  have p2 : (jsParseFloat "2").isNone = false :=
    jsParseFloat_isSome_of_parts "2" (false, [2], []) (by decide)
  have p70 : (jsParseFloat "70").isNone = false :=
    jsParseFloat_isSome_of_parts "70" (false, [7, 0], []) (by decide)
  have p20 : (jsParseFloat "20").isNone = false :=
    jsParseFloat_isSome_of_parts "20" (false, [2, 0], []) (by decide)
  have p80 : (jsParseFloat "80").isNone = false :=
    jsParseFloat_isSome_of_parts "80" (false, [8, 0], []) (by decide)
  have p05 : (jsParseFloat "0.5").isNone = false :=
    jsParseFloat_isSome_of_parts "0.5" (false, [0], [5]) (by decide)
  simp [validateFormData, validationErrors, requiredErrors, numericErrors, glucoseRangeErrors,
    bmiRangeErrors, ageRangeErrors, requiredFields, isBlankField, List.lookup, fullNumericForm,
    jsParseFloat_100, jsParseFloat_22, jsParseFloat_30, p2, p70, p20, p80, p05,
    List.filterMap,
    show jsTrim "100" ≠ "" from by decide, show jsTrim "22" ≠ "" from by decide,
    show jsTrim "30" ≠ "" from by decide]
  norm_num

/-- `Math.round` agrees with rounding to the nearest integer (halves up). -/
theorem jsMathRound_eq_round (q : ℚ) : jsMathRound q = round q := (round_eq q).symm

theorem floorDivLt {a z : ℤ} {b : ℚ} (hb : 0 < b) (h : (a : ℚ) < (z : ℚ) * b) :
    ⌊(a : ℚ) / b⌋ < z :=
  Int.floor_lt.mpr ((div_lt_iff₀ hb).mpr h)

theorem leFloorDiv {a z : ℤ} {b : ℚ} (hb : 0 < b) (h : (z : ℚ) * b ≤ (a : ℚ)) :
    z ≤ ⌊(a : ℚ) / b⌋ :=
  Int.le_floor.mpr ((le_div_iff₀ hb).mpr h)

/-- Recognizes the busy-indicator events of a submission trace. -/
def isSetLoadingEvent (e : UIEvent) : Bool :=
  match e with
  | .setLoading _ => true
  | _ => false

/-- The registry state in which each of the five charts has been
constructed exactly once: every slot holds a live instance whose identity
is the one assigned at its single construction (ids 0–4 in source update
order), and the construction counter has advanced to exactly 5. -/
def chartsCreatedOnce (s : DashState) : Prop :=
  s.charts.riskDistribution.map ChartInst.id = some 0 ∧
  s.charts.featureImportance.map ChartInst.id = some 1 ∧
  s.charts.hourlyTrend.map ChartInst.id = some 2 ∧
  s.charts.performance.map ChartInst.id = some 3 ∧
  s.charts.ageDistribution.map ChartInst.id = some 4 ∧
  s.nextChartId = 5

/-- The first refresh from the empty registry constructs each chart once. -/
theorem updateCharts_first (d : Snapshot) (r : List ℚ) :
    chartsCreatedOnce (updateCharts {} d r) := by
  simp [updateCharts, updateRiskDistributionChart, updateFeatureImportanceChart,
    updateHourlyTrendChart, updatePerformanceChart, updateAgeDistributionChart,
    chartsCreatedOnce]

/-- A refresh on a registry whose charts all exist updates every instance
in place: identities and the construction counter are unchanged. -/
theorem updateCharts_preserves (s : DashState) (d : Snapshot) (r : List ℚ)
    (h : chartsCreatedOnce s) : chartsCreatedOnce (updateCharts s d r) := by
  obtain ⟨c1, hc1, hid1⟩ := Option.map_eq_some'.mp h.1
  obtain ⟨c2, hc2, hid2⟩ := Option.map_eq_some'.mp h.2.1
  obtain ⟨c3, hc3, hid3⟩ := Option.map_eq_some'.mp h.2.2.1
  obtain ⟨c4, hc4, hid4⟩ := Option.map_eq_some'.mp h.2.2.2.1
  obtain ⟨c5, hc5, hid5⟩ := Option.map_eq_some'.mp h.2.2.2.2.1
  simp [updateCharts, updateRiskDistributionChart, updateFeatureImportanceChart,
    updateHourlyTrendChart, updatePerformanceChart, updateAgeDistributionChart,
    chartsCreatedOnce, hc1, hc2, hc3, hc4, hc5, hid1, hid2, hid3, hid4, hid5,
    h.2.2.2.2.2]

theorem foldl_refresh_preserves (l : List (Snapshot × List ℚ)) :
    ∀ s : DashState, chartsCreatedOnce s →
      chartsCreatedOnce (l.foldl refreshDashboardCharts s) := by
  induction l with
  | nil => intro s hs; simpa using hs
  | cons p rest ih =>
      intro s hs
      rw [List.foldl_cons]
      exact ih _ (updateCharts_preserves s p.1 p.2 hs)

/-- A concrete fully populated prediction response. -/
def sampleSuccessResponse : PredictResponse :=
  { status := "success", prediction_label := "Diabetic", risk_level := "high",
    confidence := ⟨65.4, 34.6⟩, health_advice := ["Consult a doctor"] }

/-! ## Claims -/

/-- C1: for every raw field-to-string input mapping, `validateFormData`
returns either a valid verdict or an invalid verdict carrying the non-empty
ordered list of collected reasons (joined with `", "`); every violated
rule's message is collected into the result rather than short-circuiting
at the first failure.  Purity and input-determinism hold by construction:
the embedding is a pure function of the mapping alone. -/
theorem validateFormData_pure_total (data : FormDataMap) :
    ((validationErrors data = [] ∧ validateFormData data = .valid) ∨
      (validationErrors data ≠ [] ∧
        validateFormData data = .invalid (String.intercalate ", " (validationErrors data)))) ∧
    (∀ e, e ∈ requiredErrors data ∨ e ∈ numericErrors data ∨ e ∈ glucoseRangeErrors data ∨
        e ∈ bmiRangeErrors data ∨ e ∈ ageRangeErrors data → e ∈ validationErrors data) := by
  constructor
  · by_cases h : validationErrors data = []
    · exact Or.inl ⟨h, by simp [validateFormData, h]⟩
    · refine Or.inr ⟨h, ?_⟩
      have hl : 0 < (validationErrors data).length := List.length_pos.mpr h
      simp [validateFormData, hl]
  · intro e he
    simp only [validationErrors, List.mem_append]
    tauto

/-- C1 witness: on the empty mapping, the required-Glucose reason is among
the collected reasons. -/
theorem validateFormData_pure_total_witness :
    ("Glucose is required") ∈ validationErrors [] :=
  (validateFormData_pure_total []).2 "Glucose is required" (Or.inl (by decide))

/-- C2: `validateFormData` reports an error for each required field that is
absent or blank and for each field whose value does not parse as a number;
each range rule fires exactly when the (present, truthy, parsed) value is
outside its range — Glucose ∉ [0,300], BMI ∉ [10,70], Age ∉ [1,120]; the
mapping Glucose=350/BMI=25/Age=40 is invalid with exactly the Glucose-range
reason, and a fully numeric mapping with Glucose=100/BMI=22/Age=30 is
valid. -/
theorem validateFormData_rules :
    (∀ (data : FormDataMap) (f : String), f ∈ requiredFields →
        isBlankField (data.lookup f) = true → (f ++ " is required") ∈ validationErrors data) ∧
    (∀ (data : FormDataMap) (k v : String), (k, v) ∈ data → jsParseFloat v = none →
        (k ++ " must be a number") ∈ validationErrors data) ∧
    (∀ (data : FormDataMap) (v : String) (g : ℚ), data.lookup "Glucose" = some v → v ≠ "" →
        jsParseFloat v = some g →
        glucoseRangeErrors data =
          if g < 0 ∨ g > 300 then ["Glucose must be between 0 and 300 mg/dL"] else []) ∧
    (∀ (data : FormDataMap) (v : String) (b : ℚ), data.lookup "BMI" = some v → v ≠ "" →
        jsParseFloat v = some b →
        bmiRangeErrors data = if b < 10 ∨ b > 70 then ["BMI must be between 10 and 70"] else []) ∧
    (∀ (data : FormDataMap) (v : String) (a : ℚ), data.lookup "Age" = some v → v ≠ "" →
        jsParseFloat v = some a →
        ageRangeErrors data =
          if a < 1 ∨ a > 120 then ["Age must be between 1 and 120 years"] else []) ∧
    validateFormData [("Glucose", "350"), ("BMI", "25"), ("Age", "40")] =
      .invalid "Glucose must be between 0 and 300 mg/dL" ∧
    validateFormData fullNumericForm = .valid := by
  refine ⟨?_, ?_, ?_, ?_, ?_, validateFormData_glucose350, validateFormData_fullNumericForm⟩
  · intro data f hf hb
    have : (f ++ " is required") ∈ requiredErrors data :=
      List.mem_filterMap.mpr ⟨f, hf, by simp [hb]⟩
    simp only [validationErrors, List.mem_append]; tauto
  · intro data k v hkv hp
    have : (k ++ " must be a number") ∈ numericErrors data :=
      List.mem_filterMap.mpr ⟨(k, v), hkv, by simp [hp]⟩
    simp only [validationErrors, List.mem_append]; tauto
  · intro data v g h1 h2 h3
    simp [glucoseRangeErrors, h1, h2, h3]
  · intro data v b h1 h2 h3
    simp [bmiRangeErrors, h1, h2, h3]
  · intro data v a h1 h2 h3
    simp [ageRangeErrors, h1, h2, h3]

/-- C2 witness: a blank Glucose field yields the required-Glucose reason. -/
theorem validateFormData_rules_witness :
    ("Glucose is required") ∈ validationErrors [("Glucose", "")] :=
  validateFormData_rules.1 [("Glucose", "")] "Glucose" (by decide) (by decide)

/-- C3 counterexample: a response with a present but empty server-supplied
error message (`error: ""`) is notified with the generic fallback
`"Prediction failed"`, not with the server-supplied message, because the
source reads `result.error || 'Prediction failed'` and the empty string is
falsy.  This refutes the claim as stated. -/
theorem handleFormSubmit_empty_error_counterexample :
    ({ status := "fail", error := some "" } : PredictResponse).error = some "" ∧
    "" ≠ "Prediction failed" ∧
    handleFormSubmit fullNumericForm (.response { status := "fail", error := some "" }) =
      [.setLoading true, .notify "Prediction failed" "error", .setLoading false] := by
  refine ⟨rfl, by decide, ?_⟩
  simp [handleFormSubmit, validateFormData_fullNumericForm, jsOrString]

/-- C3 (amended): for every submission that passes validation, the handler
takes exactly one of three terminal branches — a `"success"` status tag
renders the result and raises a success notification; any other status tag
raises an error notification whose text is the server-supplied error
message when present and non-empty, and the generic fallback otherwise;
and a network failure (unreachable, timeout, malformed body) raises the
generic connectivity-error notification. -/
theorem handleFormSubmit_branches (data : FormDataMap) (r : PredictResponse)
    (hv : validateFormData data = .valid) :
    (r.status = "success" →
      handleFormSubmit data (.response r) =
        [.setLoading true, .renderResult r,
         .notify "Prediction completed successfully!" "success", .setLoading false]) ∧
    (r.status ≠ "success" →
      ∃ m, handleFormSubmit data (.response r) =
          [.setLoading true, .notify m "error", .setLoading false] ∧
        (∀ e, r.error = some e → e ≠ "" → m = e) ∧
        ((r.error = none ∨ r.error = some "") → m = "Prediction failed")) ∧
    handleFormSubmit data .failure =
      [.setLoading true, .notify "Unable to connect to prediction service" "error",
       .setLoading false] := by
  refine ⟨?_, ?_, ?_⟩
  · intro hs; simp [handleFormSubmit, hv, hs]
  · intro hs
    refine ⟨jsOrString r.error "Prediction failed", by simp [handleFormSubmit, hv, hs], ?_, ?_⟩
    · intro e he hne; simp [jsOrString, he, hne]
    · rintro (he | he) <;> simp [jsOrString, he]
  · simp [handleFormSubmit, hv]

/-- C3 witness: the success branch on a concrete valid submission. -/
theorem handleFormSubmit_branches_witness :
    handleFormSubmit fullNumericForm (.response { status := "success" }) =
      [.setLoading true, .renderResult { status := "success" },
       .notify "Prediction completed successfully!" "success", .setLoading false] :=
  (handleFormSubmit_branches fullNumericForm { status := "success" }
    validateFormData_fullNumericForm).1 rfl

/-- C4: for every submission that passes validation, the trace starts by
setting the busy indicator, ends by clearing it, and contains exactly two
busy-indicator events in every terminal case — success, server-reported
failure, and transport failure — so the clearing happens once, through the
single `finally`-equivalent cleanup, not duplicated per branch. -/
theorem handleFormSubmit_busy_cleanup (data : FormDataMap) (o : FetchOutcome)
    (hv : validateFormData data = .valid) :
    (handleFormSubmit data o).head? = some (.setLoading true) ∧
    (handleFormSubmit data o).getLast? = some (.setLoading false) ∧
    (handleFormSubmit data o).countP isSetLoadingEvent = 2 := by
  cases o with
  | response r =>
      by_cases hs : r.status = "success" <;>
        simp [handleFormSubmit, hv, hs, isSetLoadingEvent, List.countP, List.countP.go]
  | failure =>
      simp [handleFormSubmit, hv, isSetLoadingEvent, List.countP, List.countP.go]

/-- C4 witness: the transport-failure case of a concrete valid submission. -/
theorem handleFormSubmit_busy_cleanup_witness :
    (handleFormSubmit fullNumericForm .failure).head? = some (.setLoading true) ∧
    (handleFormSubmit fullNumericForm .failure).getLast? = some (.setLoading false) ∧
    (handleFormSubmit fullNumericForm .failure).countP isSetLoadingEvent = 2 :=
  handleFormSubmit_busy_cleanup fullNumericForm .failure validateFormData_fullNumericForm

/-- C5: for the all-zero risk-distribution counts the three displayed
shares are each the string `"0%"` (no division by zero, no `NaN%`), and
for any counts with positive total each share is the count's fraction of
the total, rounded to the nearest integer, with a percent sign. -/
theorem riskPercentLabels_shares :
    riskPercentLabels { low := some 0, medium := some 0, high := some 0 } = ("0%", "0%", "0%") ∧
    (∀ rd : RiskData, 0 < rd.low.getD 0 + rd.medium.getD 0 + rd.high.getD 0 →
      riskPercentLabels rd =
        (toString (round ((rd.low.getD 0 : ℚ) /
            ((rd.low.getD 0 + rd.medium.getD 0 + rd.high.getD 0 : ℕ) : ℚ) * 100)) ++ "%",
         toString (round ((rd.medium.getD 0 : ℚ) /
            ((rd.low.getD 0 + rd.medium.getD 0 + rd.high.getD 0 : ℕ) : ℚ) * 100)) ++ "%",
         toString (round ((rd.high.getD 0 : ℚ) /
            ((rd.low.getD 0 + rd.medium.getD 0 + rd.high.getD 0 : ℕ) : ℚ) * 100)) ++ "%")) := by
  constructor
  · rfl
  · intro rd h
    simp [riskPercentLabels, riskPercentLabel, jsMathRound_eq_round, h]

/-- C5 witness: counts 1/1/2 render as 25%, 25%, 50%. -/
theorem riskPercentLabels_shares_witness :
    riskPercentLabels { low := some 1, medium := some 1, high := some 2 } =
      ("25%", "25%", "50%") := by
  rw [riskPercentLabels_shares.2 { low := some 1, medium := some 1, high := some 2 } (by decide)]
  norm_num [round_eq]
  exact ⟨rfl, rfl⟩

/-- C6: the relative time formatter returns `"Just now"` below one minute,
the minutes form below one hour, the hours form (with plural) below one
day, and the absolute date-plus-time rendering from one day onward. -/
theorem formatTime_buckets (nowMs t : ℤ) :
    (0 ≤ nowMs - t → nowMs - t < 60000 → formatTime nowMs (some t) = "Just now") ∧
    (60000 ≤ nowMs - t → nowMs - t < 3600000 →
      formatTime nowMs (some t) = toString ⌊((nowMs - t : ℤ) : ℚ) / 60000⌋ ++ " min ago") ∧
    (3600000 ≤ nowMs - t → nowMs - t < 86400000 →
      formatTime nowMs (some t) =
        toString ⌊((nowMs - t : ℤ) : ℚ) / 3600000⌋ ++ " hour" ++
          (if (1 : ℤ) < ⌊((nowMs - t : ℤ) : ℚ) / 3600000⌋ then "s" else "") ++ " ago") ∧
    (86400000 ≤ nowMs - t → formatTime nowMs (some t) = jsLocaleDateTime t) := by
  refine ⟨?_, ?_, ?_, ?_⟩
  · intro h1 h2
    have h2' : ((nowMs - t : ℤ) : ℚ) < 60000 := by exact_mod_cast h2
    have hm : ⌊((nowMs - t : ℤ) : ℚ) / 60000⌋ < 1 :=
      floorDivLt (by norm_num) (by push_cast at h2' ⊢; linarith)
    simp only [formatTime]
    rw [if_pos hm]
  · intro h1 h2
    have h1' : (60000 : ℚ) ≤ ((nowMs - t : ℤ) : ℚ) := by exact_mod_cast h1
    have h2' : ((nowMs - t : ℤ) : ℚ) < 3600000 := by exact_mod_cast h2
    have hm1 : ¬ ⌊((nowMs - t : ℤ) : ℚ) / 60000⌋ < 1 :=
      not_lt.mpr (leFloorDiv (by norm_num) (by push_cast at h1' ⊢; linarith))
    have hm2 : ⌊((nowMs - t : ℤ) : ℚ) / 60000⌋ < 60 :=
      floorDivLt (by norm_num) (by push_cast at h2' ⊢; linarith)
    simp only [formatTime]
    rw [if_neg hm1, if_pos hm2]
  · intro h1 h2
    have h1' : (3600000 : ℚ) ≤ ((nowMs - t : ℤ) : ℚ) := by exact_mod_cast h1
    have h2' : ((nowMs - t : ℤ) : ℚ) < 86400000 := by exact_mod_cast h2
    have hm1 : ¬ ⌊((nowMs - t : ℤ) : ℚ) / 60000⌋ < 1 :=
      not_lt.mpr (leFloorDiv (by norm_num) (by push_cast at h1' ⊢; linarith))
    have hm2 : ¬ ⌊((nowMs - t : ℤ) : ℚ) / 60000⌋ < 60 :=
      not_lt.mpr (leFloorDiv (by norm_num) (by push_cast at h1' ⊢; linarith))
    have hm3 : ⌊((nowMs - t : ℤ) : ℚ) / 3600000⌋ < 24 :=
      floorDivLt (by norm_num) (by push_cast at h2' ⊢; linarith)
    simp only [formatTime]
    rw [if_neg hm1, if_neg hm2, if_pos hm3]
  · intro h1
    have h1' : (86400000 : ℚ) ≤ ((nowMs - t : ℤ) : ℚ) := by exact_mod_cast h1
    have hm1 : ¬ ⌊((nowMs - t : ℤ) : ℚ) / 60000⌋ < 1 :=
      not_lt.mpr (leFloorDiv (by norm_num) (by push_cast at h1' ⊢; linarith))
    have hm2 : ¬ ⌊((nowMs - t : ℤ) : ℚ) / 60000⌋ < 60 :=
      not_lt.mpr (leFloorDiv (by norm_num) (by push_cast at h1' ⊢; linarith))
    have hm3 : ¬ ⌊((nowMs - t : ℤ) : ℚ) / 3600000⌋ < 24 :=
      not_lt.mpr (leFloorDiv (by norm_num) (by push_cast at h1' ⊢; linarith))
    simp only [formatTime]
    rw [if_neg hm1, if_neg hm2, if_neg hm3]

/-- C6 witness: the four example ages — 30 s, 5 min, 3 h, 2 days. -/
theorem formatTime_buckets_witness :
    formatTime 30000 (some 0) = "Just now" ∧
    formatTime 300000 (some 0) = "5 min ago" ∧
    formatTime 10800000 (some 0) = "3 hours ago" ∧
    formatTime 172800000 (some 0) = jsLocaleDateTime 0 := by
  refine ⟨(formatTime_buckets 30000 0).1 (by norm_num) (by norm_num), ?_, ?_,
    (formatTime_buckets 172800000 0).2.2.2 (by norm_num)⟩
  · rw [(formatTime_buckets 300000 0).2.1 (by norm_num) (by norm_num)]
    norm_num
    rfl
  · rw [(formatTime_buckets 10800000 0).2.2.1 (by norm_num) (by norm_num)]
    norm_num
    rfl

/-- C7: after any non-empty sequence of dashboard refresh cycles, the
registry holds exactly one live instance per chart name: each slot carries
the identity assigned at its single construction during the first refresh
(ids 0–4), and the construction counter stays at 5 however many further
refreshes run — later refreshes mutate the same instances in place. -/
theorem chartRegistry_single_instance (snaps : List (Snapshot × List ℚ)) (h : snaps ≠ []) :
    chartsCreatedOnce (snaps.foldl refreshDashboardCharts {}) := by
  match snaps with
  | p :: rest =>
      rw [List.foldl_cons]
      exact foldl_refresh_preserves rest _ (updateCharts_first p.1 p.2)

/-- C7 witness: two refreshes on the sample snapshot construct each chart
exactly once. -/
theorem chartRegistry_single_instance_witness :
    chartsCreatedOnce ([(sampleSnapshot 0 [], []), (sampleSnapshot 0 [], [])].foldl
      refreshDashboardCharts {}) :=
  chartRegistry_single_instance _ (List.cons_ne_nil _ _)

/-- C8: every failed refresh cycle — transport failure or a response
carrying an `error` field — raises the error notification and then
installs the locally synthesized placeholder snapshot as the current data,
rendering stats, charts, and the feed from it. -/
theorem loadDashboardData_failure_fallback (o : DashFetchOutcome) (nowMs : ℤ)
    (rand : List (ℚ × ℚ × Fin 3)) (h : o = .failure ∨ ∃ m, o = .errorField m) :
    loadDashboardData o nowMs rand =
      ([.setLoading true, .notify "Failed to load dashboard data" "error",
        .renderStats (sampleSnapshot nowMs rand).overview,
        .renderCharts (sampleSnapshot nowMs rand),
        .renderFeed (sampleSnapshot nowMs rand).predictions_timeline,
        .setLastUpdate, .setLoading false],
       some (sampleSnapshot nowMs rand)) := by
  rcases h with h | ⟨m, h⟩ <;> subst h <;> simp [loadDashboardData, updateDashboardEvents]

/-- C8 witness: the transport-failure case at a concrete time. -/
theorem loadDashboardData_failure_fallback_witness :
    loadDashboardData .failure 0 [] =
      ([.setLoading true, .notify "Failed to load dashboard data" "error",
        .renderStats (sampleSnapshot 0 []).overview,
        .renderCharts (sampleSnapshot 0 []),
        .renderFeed (sampleSnapshot 0 []).predictions_timeline,
        .setLastUpdate, .setLoading false],
       some (sampleSnapshot 0 [])) :=
  loadDashboardData_failure_fallback .failure 0 [] (Or.inl rfl)

/-- C9: evaluating the code at the failing input.  Two notifications one
second apart on the dashboard page leave both 3-second dismiss timeouts
pending on the same reused element (fire times 3000 and 4000 — the first
will dismiss the notification the second call is still showing), and two
counter-animation triggers on the same element leave two concurrent
intervals running: neither `showNotification` nor `animateCounter` resets
or clears the prior pending timer, contradicting the claim. -/
theorem pendingTimers_accumulate :
    (dashShowNotificationTimers 1000 (dashShowNotificationTimers 0 {})).pending =
      [3000, 4000] ∧
    (animateCounterTimers 1000 (animateCounterTimers 0 {})).intervals = [0, 1000] :=
  ⟨rfl, rfl⟩

/-- C10: the share summary embeds element 0 of `health_advice` with no
emptiness guard: whenever the advice list is non-empty the summary embeds
its first string, and it is defined (`some`) exactly then — for an empty
list the element-0 access yields no value. -/
theorem shareText_advice_head (r : PredictResponse) :
    (∀ a rest, r.health_advice = a :: rest →
      shareText r = some ("My diabetes risk assessment: " ++ r.prediction_label ++ " (" ++
        jsToFixed1 r.confidence.diabetic ++ "% probability). " ++ a)) ∧
    (r.health_advice = [] → shareText r = none) := by
  constructor
  · intro a rest h
    simp [shareText, h]
  · intro h
    simp [shareText, h]

/-- C10 witness: the summary of a concrete response. -/
theorem shareText_advice_head_witness :
    shareText sampleSuccessResponse =
      some "My diabetes risk assessment: Diabetic (65.4% probability). Consult a doctor" := by
  rw [(shareText_advice_head sampleSuccessResponse).1 "Consult a doctor" [] rfl]
  norm_num [jsToFixed1, round_eq, sampleSuccessResponse]
  rfl

end DiabetesUI
